import Mathlib

/-!
Verification development for the dynago executor layer (`executor.go`).

The executor code (`NewAwsExecutor`, `AwsExecutor.makeRequest`,
`AwsExecutor.MakeRequestUnmarshal`, `AwsExecutor.SchemaExecutor`) is translated
directly from `src/executor.go`.  The collaborators that live in other files of
the repository (the `aws` package's `RequestMaker`, `AwsSigner` and
`FixEndpointUrl`, the `buildError` hook, the global debug flags, and the
`awsSchemaExecutor` wrapper) are modelled from the specification; each such
definition carries a doc comment saying so.

Go's ambient effects are made explicit: the process-wide debug state is a
`GlobalDebugState` value passed to the constructor, the HTTP client and clock
are an `Ambient` value passed at dispatch time, and requester invocations are
recorded in an explicit call log so that "the transport is invoked exactly
once" is a statement about the log.  `json.Marshal` is modelled atomically:
it either yields the byte form of a document or an error.  `json.Unmarshal`
is modelled by Go's documented semantics: given the body and the current
destination value it returns the destination value after the call together
with the error, if any — Go's decoder may modify the destination even when it
also returns an error (on a type mismatch it skips the offending field,
decodes the rest as best it can, and returns the earliest type error).
-/

/-- Bytes of a request or response body, modelled as a list of byte values. -/
abbrev Bytes := List Nat

/-- Modelled from the spec: a raw transport-level failure (status plus whatever
service error code and message are derivable from the response body).  This is
the transport-internal representation that must never cross the Dispatcher
boundary. -/
structure TransportFailure where
  status : Nat
  payloadCode : Option String
  payloadMessage : Option String
  deriving DecidableEq, Repr

/-- Modelled from the spec: the Typed Error produced by the error-construction
hook: status/classification plus a service-defined error code and message when
derivable from the response body. -/
structure TypedError where
  status : Nat
  code : String
  message : String
  deriving DecidableEq, Repr

/-- Modelled from the spec: `buildError`, the injectable error-construction
hook `(rawFailure) -> TypedError` that `NewAwsExecutor` wires into the
Dispatcher.  It converts a raw transport failure into a structured Typed
Error. -/
def buildError (f : TransportFailure) : TypedError :=
  { status := f.status
    code := f.payloadCode.getD ""
    message := f.payloadMessage.getD "" }

/-- A Go `error` value as it crosses the layers of this library: a marshaling
error, a Typed Error produced by the error-construction hook, an unmarshaling
error, or a raw transport-internal error (the representation the Dispatcher
must never leak). -/
inductive GoError where
  | marshal (msg : String)
  | typed (te : TypedError)
  | unmarshal (msg : String)
  | rawTransport (f : TransportFailure)
  deriving DecidableEq, Repr

/-- A JSON-serializable request document as seen by `encoding/json`: either it
serializes to its byte form or marshaling fails with an error message.  This
models `json.Marshal` atomically. -/
inductive Document where
  | serializable (bytes : Bytes)
  | unserializable (msg : String)
  deriving DecidableEq, Repr

/-- Model of `json.Marshal` on a `Document`. -/
def jsonMarshal : Document → Except String Bytes
  | .serializable bs => .ok bs
  | .unserializable msg => .error msg

/-- `ExecutorConfig` from `executor.go` (lines 45–54). -/
structure ExecutorConfig where
  Region : String
  AccessKey : String
  SecretKey : String
  SessionToken : String
  Endpoint : String
  deriving DecidableEq, Repr

/-- `aws.AwsSigner` as constructed by `NewAwsExecutor` (lines 62–68):
credentials fixed at construction. -/
structure AwsSigner where
  Region : String
  AccessKey : String
  SecretKey : String
  SessionToken : String
  Service : String
  deriving DecidableEq, Repr

/-- Modelled from the spec: a deterministic keyed-hash primitive standing in
for HMAC-SHA256 (CPU-bound hashing, no effects). -/
def hmacModel (key msg : Bytes) : Bytes :=
  let mix : Nat → Nat → Nat := fun acc b => (acc * 131 + b + 7) % 4294967291
  let k := key.foldl mix 5381
  [msg.foldl mix k, (msg.foldl mix k + k) % 4294967291]

/-- Modelled from the spec: a deterministic unkeyed hash standing in for
SHA-256, used for the body hash and the canonical-request hash. -/
def hashModel (msg : Bytes) : Bytes :=
  hmacModel [] msg

/-- Byte sequence of a string (code points, standing in for UTF-8 bytes). -/
def strBytes (s : String) : Bytes :=
  s.toList.map Char.toNat

/-- Render a digest as a string (standing in for lowercase hex encoding). -/
def digestString (bs : Bytes) : String :=
  String.intercalate "-" (bs.map toString)

/-- Modelled from the spec: the per-request signing key, derived from the
secret key, the date, the region and the service identifier by chained
keyed-hash steps, so the raw secret key is never used directly against request
data. -/
def AwsSigner.deriveSigningKey (s : AwsSigner) (date : String) : Bytes :=
  let kDate := hmacModel (strBytes ("AWS4" ++ s.SecretKey)) (strBytes date)
  let kRegion := hmacModel kDate (strBytes s.Region)
  let kService := hmacModel kRegion (strBytes s.Service)
  hmacModel kService (strBytes "aws4_request")

/-- Modelled from the spec: the canonical headers, sorted and lower-cased. -/
def canonicalHeaders (target timestamp : String) : String :=
  "content-type:application/x-amz-json-1.0\nx-amz-date:" ++ timestamp ++
    "\nx-amz-target:" ++ target ++ "\n"

/-- Modelled from the spec: the canonical request representation, built
deterministically from method, canonical URI, canonical query string (empty —
all parameters travel in the body), canonical headers, and a hash of the
body. -/
def AwsSigner.canonicalRequest (_s : AwsSigner) (target : String) (body : Bytes)
    (timestamp : String) : String :=
  "POST\n/\n\n" ++ canonicalHeaders target timestamp ++
    "\ncontent-type;x-amz-date;x-amz-target\n" ++ digestString (hashModel body)

/-- Modelled from the spec: the string-to-sign, combining the hash of the
canonical request with a scope string (date/region/service). -/
def AwsSigner.stringToSign (s : AwsSigner) (target : String) (body : Bytes)
    (timestamp date : String) : String :=
  "AWS4-HMAC-SHA256\n" ++ timestamp ++ "\n" ++ date ++ "/" ++ s.Region ++ "/" ++
    s.Service ++ "/aws4_request\n" ++
    digestString (hashModel (strBytes (s.canonicalRequest target body timestamp)))

/-- Modelled from the spec: the final signature, a keyed hash of the
string-to-sign under the derived signing key.  The date component of the scope
is the date prefix of the timestamp. -/
def AwsSigner.signature (s : AwsSigner) (target : String) (body : Bytes)
    (timestamp : String) : Bytes :=
  let date := timestamp.take 8
  hmacModel (s.deriveSigningKey date) (strBytes (s.stringToSign target body timestamp date))

/-- Modelled from the spec: `sign(operationTarget, body, timestamp) -> headers`.
Emits the authorization header alongside the timestamp header, the
operation-target header, the fixed content-type, and, if a session token is
present, a security-token header. -/
def AwsSigner.sign (s : AwsSigner) (target : String) (body : Bytes)
    (timestamp : String) : List (String × String) :=
  let date := timestamp.take 8
  let auth := "AWS4-HMAC-SHA256 Credential=" ++ s.AccessKey ++ "/" ++ date ++ "/" ++
    s.Region ++ "/" ++ s.Service ++
    "/aws4_request, SignedHeaders=content-type;x-amz-date;x-amz-target, Signature=" ++
    digestString (s.signature target body timestamp)
  [("Authorization", auth), ("X-Amz-Date", timestamp), ("X-Amz-Target", target),
    ("Content-Type", "application/x-amz-json-1.0")] ++
    (if s.SessionToken ≠ "" then [("X-Amz-Security-Token", s.SessionToken)] else [])

/-- Outcome reported by the raw transport: a response body it does not treat as
an error condition, or a transport failure. -/
inductive TransportOutcome where
  | success (body : Bytes)
  | failure (f : TransportFailure)

/-- Modelled from the spec: the pluggable transport capability
`(operationTarget, headers, body) -> (responseBody | failure)`. -/
structure Transport where
  send : String → List (String × String) → Bytes → TransportOutcome

/-- Modelled from the spec: process-wide mutable debug state — the `Debug`
flag bitmask and the identity of the installed `DebugFunc` — read by
`NewAwsExecutor` at construction time. -/
structure GlobalDebugState where
  Debug : Nat
  DebugFuncId : Nat
  deriving DecidableEq, Repr

/-- Modelled from the spec: the `DebugRequests` flag bit. -/
def DebugRequests : Nat := 1

/-- Modelled from the spec: the `DebugResponses` flag bit. -/
def DebugResponses : Nat := 2

/-- Modelled from the spec: `Debug.HasFlag`, testing a flag bit of the debug
bitmask. -/
def HasFlag (flags flag : Nat) : Bool :=
  Nat.land flags flag != 0

/-- A structured debug trace event emitted to the caller-supplied sink,
tagged with the identity of the sink function receiving it. -/
inductive DebugEvent where
  | request (funcId : Nat) (target : String) (body : Bytes)
  | response (funcId : Nat) (target : String) (body : Bytes)
  deriving DecidableEq, Repr

/-- `aws.RequestMaker` as constructed by `NewAwsExecutor` (lines 69–76): the
Dispatcher's configuration — endpoint, signer, error-construction hook, and
the debug flags and sink captured at construction. -/
structure RequestMaker where
  Endpoint : String
  Signer : AwsSigner
  BuildError : TransportFailure → TypedError
  DebugRequests : Bool
  DebugResponses : Bool
  DebugFuncId : Nat

/-- The ambient process environment at dispatch time: the HTTP client, the
current clock reading, and the current (possibly since mutated) global debug
state.  The dispatcher consults only its own stored configuration, never
`globals`. -/
structure Ambient where
  transport : Transport
  now : String
  globals : GlobalDebugState

/-- Modelled from the spec: the Dispatcher's round trip
`dispatch(operationTarget, body) -> (responseBody, error)`.  It invokes the
Signer for headers, sends via the Transport, returns a success body unmodified,
and on failure returns the Typed Error produced by its configured
error-construction hook — never the raw transport failure.  Debug events are
gated by the flags stored in the `RequestMaker` itself. -/
def RequestMaker.dispatch (rm : RequestMaker) (amb : Ambient) (target : String)
    (body : Bytes) : Except GoError Bytes × List DebugEvent :=
  let headers := rm.Signer.sign target body amb.now
  let reqEv := if rm.DebugRequests then [DebugEvent.request rm.DebugFuncId target body] else []
  match amb.transport.send target headers body with
  | .success resp =>
      (.ok resp,
        reqEv ++ (if rm.DebugResponses then [DebugEvent.response rm.DebugFuncId target resp] else []))
  | .failure f => (.error (.typed (rm.BuildError f)), reqEv)

/-- The `AwsRequester` capability (`executor.go` lines 38–41): either the
`aws.RequestMaker` built by `NewAwsExecutor`, or a custom requester (a test
double or custom backend). -/
inductive AwsRequester where
  | requestMaker (rm : RequestMaker)
  | custom (f : String → Bytes → Except GoError Bytes)

/-- `MakeRequest(target, body)` on the requester capability. -/
def AwsRequester.MakeRequest : AwsRequester → Ambient → String → Bytes → Except GoError Bytes
  | .requestMaker rm, amb, target, body => (rm.dispatch amb target body).1
  | .custom f, _, target, body => f target body

/-- `AwsExecutor` (`executor.go` lines 83–89). -/
structure AwsExecutor where
  Requester : AwsRequester

/-- One recorded invocation of `Requester.MakeRequest`. -/
structure RequesterCall where
  target : String
  body : Bytes
  deriving DecidableEq, Repr

/-- Default the endpoint from the region template (`executor.go` lines 58–60):
the mutation of the constructor's local `config` copy. -/
def defaultEndpoint (config : ExecutorConfig) : ExecutorConfig :=
  if config.Endpoint = "" then
    { config with Endpoint := "https://dynamodb." ++ config.Region ++ ".amazonaws.com/" }
  else config

/-- Modelled from the spec: `aws.FixEndpointUrl`, normalizing the endpoint once
at construction time (trailing slash). -/
def FixEndpointUrl (url : String) : String :=
  if url.data.getLast? = some '/' then url else url ++ "/"

/-- `NewAwsExecutor` (`executor.go` lines 57–78).  The process-wide debug state
it reads is passed explicitly.  It performs no validation and no I/O: it
defaults the endpoint on its local config copy, builds the signer and the
request maker, and returns the executor. -/
def NewAwsExecutor (globals : GlobalDebugState) (config : ExecutorConfig) : AwsExecutor :=
  let config := defaultEndpoint config
  let signer : AwsSigner :=
    { Region := config.Region
      AccessKey := config.AccessKey
      SecretKey := config.SecretKey
      SessionToken := config.SessionToken
      Service := "dynamodb" }
  let requester : RequestMaker :=
    { Endpoint := FixEndpointUrl config.Endpoint
      Signer := signer
      BuildError := buildError
      DebugRequests := HasFlag globals.Debug DebugRequests
      DebugResponses := HasFlag globals.Debug DebugResponses
      DebugFuncId := globals.DebugFuncId }
  { Requester := .requestMaker requester }

/-- `AwsExecutor.makeRequest` (`executor.go` lines 91–97): marshal the document;
on marshaling error return it (no requester call); otherwise invoke
`Requester.MakeRequest` once.  The second component is the log of requester
invocations performed. -/
def AwsExecutor.makeRequest (e : AwsExecutor) (amb : Ambient) (target : String)
    (document : Document) : Except GoError Bytes × List RequesterCall :=
  match jsonMarshal document with
  | .error msg => (.error (.marshal msg), [])
  | .ok buf => (e.Requester.MakeRequest amb target buf, [⟨target, buf⟩])

/-- The outcome of a `json.Unmarshal(body, &dest)` call: the value `dest`
holds after the call and the error returned, if any.  Go's decoder may have
modified `dest` even in the error case: on a type mismatch it skips the
offending field, decodes the rest as best it can, and returns the earliest
type error, leaving the destination partially populated. -/
structure UnmarshalResult (α : Type) where
  err : Option String
  dest : α
  deriving DecidableEq, Repr

/-- `AwsExecutor.MakeRequestUnmarshal` (`executor.go` lines 106–113): make the
request; on a request error return it with `dest` untouched (the unmarshal is
never reached); otherwise call `json.Unmarshal(body, &dest)` and return its
error, keeping whatever it left in the destination.  `um` models
`json.Unmarshal` for the destination type: from the body and the current
destination value to the destination value after the call plus the optional
error.  Returns the Go error result, the destination value after the call,
and the requester call log. -/
def AwsExecutor.MakeRequestUnmarshal {α : Type} (e : AwsExecutor) (amb : Ambient)
    (um : Bytes → α → UnmarshalResult α) (method : String) (document : Document)
    (dest : α) : Except GoError Unit × α × List RequesterCall :=
  match e.makeRequest amb method document with
  | (.error err, calls) => (.error err, dest, calls)
  | (.ok body, calls) =>
    match um body dest with
    | ⟨some msg, destAfter⟩ => (.error (.unmarshal msg), destAfter, calls)
    | ⟨none, destAfter⟩ => (.ok (), destAfter, calls)

/-- Modelled from the spec: `awsSchemaExecutor`, the capability-narrowing view
wrapping the executor. -/
structure awsSchemaExecutor where
  executor : AwsExecutor

/-- `AwsExecutor.SchemaExecutor` (`executor.go` lines 116–118): wrap this very
executor. -/
def AwsExecutor.SchemaExecutor (e : AwsExecutor) : awsSchemaExecutor :=
  ⟨e⟩

/-- Modelled from the spec: a schema operation (here `CreateTable`) calls
`MakeRequestUnmarshal` on the wrapped executor with its fixed operation-target
string, introducing no transport or signing logic of its own. -/
def awsSchemaExecutor.CreateTable {α : Type} (s : awsSchemaExecutor) (amb : Ambient)
    (um : Bytes → α → UnmarshalResult α) (document : Document) (dest : α) :
    Except GoError Unit × α × List RequesterCall :=
  s.executor.MakeRequestUnmarshal amb um "DynamoDB_20120810.CreateTable" document dest

/-- The endpoint stored in the executor's request maker, when it has one. -/
def AwsExecutor.requesterEndpoint (e : AwsExecutor) : Option String :=
  match e.Requester with
  | .requestMaker rm => some rm.Endpoint
  | .custom _ => none

/-- The caller's frame around a `NewAwsExecutor` call: Go passes
`ExecutorConfig` by value, so the callee operates on a copy; the pair is the
caller's variable after the call and the constructed executor. -/
def constructionCallFrame (globals : GlobalDebugState) (callerConfig : ExecutorConfig) :
    ExecutorConfig × AwsExecutor :=
  (callerConfig, NewAwsExecutor globals callerConfig)

/-- The signer stored in the executor's request maker, when it has one. -/
def AwsExecutor.requesterSigner (e : AwsExecutor) : Option AwsSigner :=
  match e.Requester with
  | .requestMaker rm => some rm.Signer
  | .custom _ => none

/-- A concrete ambient environment for witnesses: a transport that echoes the
body back. -/
def ambientEchoW : Ambient :=
  ⟨⟨fun _ _ body => .success body⟩, "20260101T000000Z", ⟨0, 0⟩⟩

/-- A concrete executor with an echoing custom requester, for witnesses. -/
def executorEchoW : AwsExecutor :=
  ⟨.custom fun _ body => .ok body⟩

/-- A concrete transport failure, for witnesses. -/
def failureW : TransportFailure :=
  ⟨400, some "ProvisionedThroughputExceededException", some "slow down"⟩

/-- A concrete ambient environment whose transport always fails with
`failureW`, for witnesses. -/
def ambientFailW : Ambient :=
  ⟨⟨fun _ _ _ => .failure failureW⟩, "20260101T000000Z", ⟨3, 7⟩⟩

/-- A concrete configuration with no explicit endpoint, for witnesses. -/
def configW : ExecutorConfig :=
  ⟨"us-east-1", "AKID", "SECRET", "", ""⟩

/-- A concrete signer, for witnesses. -/
def signerW : AwsSigner :=
  ⟨"eu-west-1", "AKID", "SECRET", "tok", "dynamodb"⟩

/-- A scalar value of the restricted JSON object grammar used to model
`encoding/json` decoding concretely: a natural-number literal or a string. -/
inductive JsonScalar where
  | num (n : Nat)
  | str (s : String)
  deriving DecidableEq, Repr

/-- Read the characters of a JSON string up to the closing quote (byte 34);
returns the contents and the rest of the input. -/
def parseStringChars : List Nat → Option (List Char × List Nat)
  | [] => none
  | c :: rest =>
    if c = 34 then some ([], rest)
    else
      match parseStringChars rest with
      | some (cs, r) => some (Char.ofNat c :: cs, r)
      | none => none

/-- Split a leading run of decimal digit bytes (48–57) off the input. -/
def takeDigits : List Nat → (List Nat × List Nat)
  | [] => ([], [])
  | c :: rest =>
    if 48 ≤ c ∧ c ≤ 57 then
      let (ds, r) := takeDigits rest
      (c :: ds, r)
    else ([], c :: rest)

/-- Parse one scalar: a quoted string or a natural-number literal. -/
def parseScalar (input : List Nat) : Option (JsonScalar × List Nat) :=
  match input with
  | 34 :: rest =>
    match parseStringChars rest with
    | some (cs, r) => some (.str (String.mk cs), r)
    | none => none
  | _ =>
    match takeDigits input with
    | ([], _) => none
    | (ds, r) => some (.num (ds.foldl (fun acc d => acc * 10 + (d - 48)) 0), r)

/-- Parse a non-empty field list `"name":value` separated by commas and closed
by a brace (byte 125); fueled by the input length. -/
def parseFieldList (fuel : Nat) (input : List Nat) :
    Option (List (String × JsonScalar) × List Nat) :=
  match fuel with
  | 0 => none
  | fuel + 1 =>
    match input with
    | 34 :: rest =>
      match parseStringChars rest with
      | none => none
      | some (nameCs, r1) =>
        match r1 with
        | 58 :: r2 =>
          match parseScalar r2 with
          | none => none
          | some (v, r3) =>
            match r3 with
            | 44 :: r4 =>
              match parseFieldList fuel r4 with
              | none => none
              | some (fs, r5) => some ((String.mk nameCs, v) :: fs, r5)
            | 125 :: r4 => some ([(String.mk nameCs, v)], r4)
            | _ => none
        | _ => none
    | _ => none

/-- Parse a whole flat JSON object (opening byte 123) whose values are scalars;
`none` models a JSON syntax error. -/
def parseObject (body : Bytes) : Option (List (String × JsonScalar)) :=
  match body with
  | 123 :: 125 :: [] => some []
  | 123 :: rest =>
    match parseFieldList body.length rest with
    | some (fs, []) => some fs
    | _ => none
  | _ => none

/-- A destination type for decoding a typed result: the Go struct
`struct { Count int; Capacity int }`. -/
structure TwoFieldResult where
  Count : Nat
  Capacity : Nat
  deriving DecidableEq, Repr

/-- Modelled: Go `encoding/json.Unmarshal` decoding into `TwoFieldResult`,
per Go's documented semantics.  Syntactically invalid JSON is rejected with
the destination untouched.  In a well-formed object, a numeric `Count` or
`Capacity` field sets the matching destination field; a field whose JSON type
does not match the struct field is skipped — that destination field keeps its
prior value — decoding continues with the remaining fields, and the earliest
type error is returned; unknown fields are ignored. -/
def unmarshalTwoField (body : Bytes) (dest : TwoFieldResult) :
    UnmarshalResult TwoFieldResult :=
  match parseObject body with
  | none => ⟨some "invalid character", dest⟩
  | some fields =>
    let step : TwoFieldResult × Option String → String × JsonScalar →
        TwoFieldResult × Option String := fun acc f =>
      match f with
      | ("Count", .num n) => ({ acc.1 with Count := n }, acc.2)
      | ("Capacity", .num n) => ({ acc.1 with Capacity := n }, acc.2)
      | ("Count", .str _) =>
        (acc.1, acc.2.orElse fun _ =>
          some "json: cannot unmarshal string into Go struct field TwoFieldResult.Count of type int")
      | ("Capacity", .str _) =>
        (acc.1, acc.2.orElse fun _ =>
          some "json: cannot unmarshal string into Go struct field TwoFieldResult.Capacity of type int")
      | _ => acc
    let r := fields.foldl step (dest, none)
    ⟨r.2, r.1⟩

/-- A concrete response body: the byte codes of the JSON text
`\x7b"Count":1,"Capacity":"x"\x7d` — syntactically valid, with a numeric
`Count` field but a string-typed `Capacity` field. -/
def mismatchBodyW : Bytes :=
  [123, 34, 67, 111, 117, 110, 116, 34, 58, 49, 44,
   34, 67, 97, 112, 97, 99, 105, 116, 121, 34, 58, 34, 120, 34, 125]

/-- A concrete executor whose requester answers every request successfully
with `mismatchBodyW`. -/
def executorMismatchW : AwsExecutor :=
  ⟨.custom fun _ _ => .ok mismatchBodyW⟩

/-- C1: when the transport reports a failure, the error returned across the
Dispatcher boundary is the Typed Error produced by the configured
error-construction hook `buildError` — never a raw transport-internal error —
and `MakeRequestUnmarshal` propagates that error unchanged, attempting no
unmarshal (the destination is untouched) and making exactly one requester
call. -/
theorem c1_typed_error_mediation {α : Type} (g : GlobalDebugState) (cfg : ExecutorConfig)
    (amb : Ambient) (um : Bytes → α → UnmarshalResult α) (method : String) (document : Document)
    (dest : α) (buf : Bytes) (f : TransportFailure)
    (hm : jsonMarshal document = .ok buf)
    (ht : ∀ headers, amb.transport.send method headers buf = .failure f) :
    (NewAwsExecutor g cfg).MakeRequestUnmarshal amb um method document dest =
      (.error (.typed (buildError f)), dest, [⟨method, buf⟩]) := by
  simp [NewAwsExecutor, AwsExecutor.MakeRequestUnmarshal, AwsExecutor.makeRequest, hm,
    AwsRequester.MakeRequest, RequestMaker.dispatch, ht]

/-- C1 witness: a concrete always-failing transport yields exactly the Typed
Error built by `buildError`, with the destination untouched. -/
theorem c1_typed_error_mediation_witness :
    jsonMarshal (.serializable [123, 125]) = .ok [123, 125] ∧
    (NewAwsExecutor ⟨3, 7⟩ configW).MakeRequestUnmarshal ambientFailW
        (fun _ (d : Nat) => ⟨none, d⟩) "DynamoDB_20120810.GetItem" (.serializable [123, 125]) 0 =
      (.error (.typed (buildError failureW)), 0, [⟨"DynamoDB_20120810.GetItem", [123, 125]⟩]) :=
  ⟨rfl, c1_typed_error_mediation ⟨3, 7⟩ configW ambientFailW (fun _ d => ⟨none, d⟩)
    "DynamoDB_20120810.GetItem" (.serializable [123, 125]) 0 [123, 125] failureW rfl
    (fun _ => rfl)⟩

/-- C2 counterexample: with a requester that successfully returns the
syntactically valid body `\x7b"Count":1,"Capacity":"x"\x7d` and a destination
struct that starts as `⟨0, 0⟩`, `MakeRequestUnmarshal` returns an unmarshal
error AND a destination modified to `⟨1, 0⟩` — `json.Unmarshal` decoded the
numeric `Count` field before hitting the type mismatch on `Capacity` — so the
destination is not left unmodified on unmarshal failure and the caller
receives both a partially populated result and an error. -/
theorem c2_partial_population_counterexample :
    (executorMismatchW.MakeRequestUnmarshal ambientEchoW unmarshalTwoField
        "DynamoDB_20120810.GetItem" (.serializable [1]) ⟨0, 0⟩).1 =
      .error (.unmarshal
        "json: cannot unmarshal string into Go struct field TwoFieldResult.Capacity of type int") ∧
    (executorMismatchW.MakeRequestUnmarshal ambientEchoW unmarshalTwoField
        "DynamoDB_20120810.GetItem" (.serializable [1]) ⟨0, 0⟩).2.1 = ⟨1, 0⟩ ∧
    (⟨1, 0⟩ : TwoFieldResult) ≠ ⟨0, 0⟩ := by
  refine ⟨rfl, by decide, by decide⟩

/-- C2 (amended): every `MakeRequestUnmarshal` call falls in exactly one of
three cases: the round trip and the decode both succeed and the destination
holds the fully decoded response value; the failure occurs before unmarshaling
(marshal or dispatch error) and the destination is exactly the value passed
in; or unmarshaling of a successful response fails and the destination holds
whatever the decoder left — possibly partially populated.  The call never
returns ok together with a failure, and always returns exactly one of the
two. -/
theorem c2_result_or_error_discipline {α : Type} (e : AwsExecutor) (amb : Ambient)
    (um : Bytes → α → UnmarshalResult α) (method : String) (document : Document)
    (dest : α) :
    (∃ body destAfter, (e.makeRequest amb method document).1 = .ok body ∧
        um body dest = ⟨none, destAfter⟩ ∧
        (e.MakeRequestUnmarshal amb um method document dest).1 = .ok () ∧
        (e.MakeRequestUnmarshal amb um method document dest).2.1 = destAfter) ∨
    (∃ err, (e.makeRequest amb method document).1 = .error err ∧
        (e.MakeRequestUnmarshal amb um method document dest).1 = .error err ∧
        (e.MakeRequestUnmarshal amb um method document dest).2.1 = dest) ∨
    (∃ body msg destAfter, (e.makeRequest amb method document).1 = .ok body ∧
        um body dest = ⟨some msg, destAfter⟩ ∧
        (e.MakeRequestUnmarshal amb um method document dest).1 =
          .error (.unmarshal msg) ∧
        (e.MakeRequestUnmarshal amb um method document dest).2.1 = destAfter) := by
  cases hmr : e.makeRequest amb method document with
  | mk res calls =>
    cases res with
    | error err =>
      right; left
      exact ⟨err, by simp [hmr], by simp [AwsExecutor.MakeRequestUnmarshal, hmr],
        by simp [AwsExecutor.MakeRequestUnmarshal, hmr]⟩
    | ok body =>
      cases hum : um body dest with
      | mk errOpt destAfter =>
        cases errOpt with
        | none =>
          left
          exact ⟨body, destAfter, by simp [hmr], hum,
            by simp [AwsExecutor.MakeRequestUnmarshal, hmr, hum],
            by simp [AwsExecutor.MakeRequestUnmarshal, hmr, hum]⟩
        | some msg =>
          right; right
          exact ⟨body, msg, destAfter, by simp [hmr], hum,
            by simp [AwsExecutor.MakeRequestUnmarshal, hmr, hum],
            by simp [AwsExecutor.MakeRequestUnmarshal, hmr, hum]⟩

/-- C3: with an empty `Endpoint`, `NewAwsExecutor` derives the endpoint as
`"https://dynamodb." ++ Region ++ ".amazonaws.com/"` and a non-empty endpoint
is kept as given; the executor's request maker stores the (normalized)
defaulted endpoint; and for region `us-east-1` the derived endpoint is
`"https://dynamodb.us-east-1.amazonaws.com/"`. -/
theorem c3_endpoint_defaulting (g : GlobalDebugState) (cfg : ExecutorConfig) :
    (defaultEndpoint cfg).Endpoint =
      (if cfg.Endpoint = "" then "https://dynamodb." ++ cfg.Region ++ ".amazonaws.com/"
        else cfg.Endpoint) ∧
    (NewAwsExecutor g cfg).requesterEndpoint =
      some (FixEndpointUrl (defaultEndpoint cfg).Endpoint) ∧
    (defaultEndpoint ⟨"us-east-1", "", "", "", ""⟩).Endpoint =
      "https://dynamodb.us-east-1.amazonaws.com/" := by
  refine ⟨?_, rfl, rfl⟩
  by_cases h : cfg.Endpoint = "" <;> simp [defaultEndpoint, h]

/-- C4: when JSON serialization of the request document fails, `makeRequest`
returns the marshaling error and the requester call log is empty — the
transport is never invoked. -/
theorem c4_marshal_failure_no_network (e : AwsExecutor) (amb : Ambient) (target : String)
    (document : Document) (msg : String) (h : jsonMarshal document = .error msg) :
    e.makeRequest amb target document = (.error (.marshal msg), []) := by
  simp [AwsExecutor.makeRequest, h]

/-- C4 witness: an unserializable document produces the marshal error and an
empty call log. -/
theorem c4_marshal_failure_no_network_witness :
    jsonMarshal (.unserializable "unsupported type") = .error "unsupported type" ∧
    executorEchoW.makeRequest ambientEchoW "DynamoDB_20120810.PutItem"
        (.unserializable "unsupported type") =
      (.error (.marshal "unsupported type"), []) :=
  ⟨rfl, c4_marshal_failure_no_network executorEchoW ambientEchoW "DynamoDB_20120810.PutItem"
    (.unserializable "unsupported type") "unsupported type" rfl⟩

/-- C5: when marshaling succeeds, `makeRequest` invokes `Requester.MakeRequest`
exactly once (the call log is the one call with the marshaled body) and its
result — success or failure — is exactly the requester's result, propagated
directly with no retry, backoff, or circuit breaking. -/
theorem c5_exactly_one_attempt (e : AwsExecutor) (amb : Ambient) (target : String)
    (document : Document) (buf : Bytes) (h : jsonMarshal document = .ok buf) :
    (e.makeRequest amb target document).2 = [⟨target, buf⟩] ∧
    (e.makeRequest amb target document).1 = e.Requester.MakeRequest amb target buf := by
  simp [AwsExecutor.makeRequest, h]

/-- C5 witness: a serializable document yields exactly one requester call and
the requester's own result. -/
theorem c5_exactly_one_attempt_witness :
    jsonMarshal (.serializable [1, 2, 3]) = .ok [1, 2, 3] ∧
    (executorEchoW.makeRequest ambientEchoW "DynamoDB_20120810.Query"
        (.serializable [1, 2, 3])).2 = [⟨"DynamoDB_20120810.Query", [1, 2, 3]⟩] ∧
    (executorEchoW.makeRequest ambientEchoW "DynamoDB_20120810.Query"
        (.serializable [1, 2, 3])).1 =
      executorEchoW.Requester.MakeRequest ambientEchoW "DynamoDB_20120810.Query" [1, 2, 3] :=
  ⟨rfl, c5_exactly_one_attempt executorEchoW ambientEchoW "DynamoDB_20120810.Query"
    (.serializable [1, 2, 3]) [1, 2, 3] rfl⟩

/-- C6 counterexample: on the invalid configuration with empty region and no
keys, `NewAwsExecutor` does not detect the invalidity and returns no error —
its return type has no error channel at all — but yields a normal executor
whose request maker has the nonsensical endpoint derived from the empty region
and whose signer stores the empty credentials unvalidated. -/
theorem c6_no_construction_error_counterexample :
    (NewAwsExecutor ⟨0, 0⟩ ⟨"", "", "", "", ""⟩).requesterEndpoint =
      some "https://dynamodb..amazonaws.com/" ∧
    (NewAwsExecutor ⟨0, 0⟩ ⟨"", "", "", "", ""⟩).requesterSigner =
      some ⟨"", "", "", "", "dynamodb"⟩ := by
  constructor <;> decide

/-- C6 (amended): `NewAwsExecutor` performs no configuration validation and
cannot return an error: for every configuration, valid or not, construction
returns normally an executor whose request maker stores the credentials
exactly as given, and no network activity occurs during construction (the
constructor never touches a transport; its requester call log would be
empty). -/
theorem c6_construction_never_fails (g : GlobalDebugState) (cfg : ExecutorConfig) :
    (NewAwsExecutor g cfg).requesterSigner =
      some ⟨cfg.Region, cfg.AccessKey, cfg.SecretKey, cfg.SessionToken, "dynamodb"⟩ ∧
    (NewAwsExecutor g cfg).requesterEndpoint =
      some (FixEndpointUrl (defaultEndpoint cfg).Endpoint) := by
  refine ⟨?_, rfl⟩
  by_cases h : cfg.Endpoint = "" <;>
    simp [NewAwsExecutor, AwsExecutor.requesterSigner, defaultEndpoint, h]

/-- C7: the schema sub-executor returned by `SchemaExecutor` wraps the very
same executor instance — sharing its requester — and a schema operation made
through the view is exactly a `MakeRequestUnmarshal` call on that executor
with the operation's fixed target, adding no transport or signing logic. -/
theorem c7_schema_view_shares_executor (e : AwsExecutor) :
    (e.SchemaExecutor).executor = e ∧
    (e.SchemaExecutor).executor.Requester = e.Requester ∧
    ∀ (α : Type) (amb : Ambient) (um : Bytes → α → UnmarshalResult α) (document : Document)
      (dest : α),
      (e.SchemaExecutor).CreateTable amb um document dest =
        e.MakeRequestUnmarshal amb um "DynamoDB_20120810.CreateTable" document dest :=
  ⟨rfl, rfl, fun _ _ _ _ _ => rfl⟩

/-- C8: the signer is a deterministic function of the operation target, body,
timestamp and the credentials fixed at construction: signing the same inputs
twice under the same credentials yields identical headers (and hence an
identical signature). -/
theorem c8_sign_deterministic (s : AwsSigner) (t₁ t₂ : String) (b₁ b₂ : Bytes)
    (ts₁ ts₂ : String) (h₁ : t₁ = t₂) (h₂ : b₁ = b₂) (h₃ : ts₁ = ts₂) :
    s.sign t₁ b₁ ts₁ = s.sign t₂ b₂ ts₂ := by
  rw [h₁, h₂, h₃]

/-- C8 witness: two signing calls with the same concrete target, body and
timestamp under the same credentials produce the same headers. -/
theorem c8_sign_deterministic_witness :
    signerW.sign "DynamoDB_20120810.Query" [1, 2, 3] "20260101T010203Z" =
      signerW.sign "DynamoDB_20120810.Query" [1, 2, 3] "20260101T010203Z" :=
  c8_sign_deterministic signerW "DynamoDB_20120810.Query" "DynamoDB_20120810.Query"
    [1, 2, 3] [1, 2, 3] "20260101T010203Z" "20260101T010203Z" rfl rfl rfl

/-- C9: the debug flags and debug-function identity of the executor's request
maker are read from the global debug state exactly once, at `NewAwsExecutor`
construction time: the constructed request maker stores the flag values the
globals had then, and dispatch ignores the ambient (possibly since mutated)
global debug state — mutating the globals after construction changes nothing
about the dispatch of an already-constructed executor. -/
theorem c9_debug_state_captured_at_construction (g : GlobalDebugState)
    (cfg : ExecutorConfig) :
    ∃ rm, (NewAwsExecutor g cfg).Requester = .requestMaker rm ∧
      rm.DebugRequests = HasFlag g.Debug DebugRequests ∧
      rm.DebugResponses = HasFlag g.Debug DebugResponses ∧
      rm.DebugFuncId = g.DebugFuncId ∧
      ∀ (amb : Ambient) (gMut : GlobalDebugState) (target : String) (body : Bytes),
        rm.dispatch { amb with globals := gMut } target body =
          rm.dispatch amb target body :=
  ⟨_, rfl, rfl, rfl, rfl, fun _ _ _ _ => rfl⟩

/-- C10: `NewAwsExecutor` receives its configuration by value: the caller's
configuration is unchanged by construction — its endpoint is still empty
afterwards — even though the endpoint-defaulting assignment changed the
constructor's local copy (the defaulted copy differs from the caller's
value). -/
theorem c10_config_passed_by_value (g : GlobalDebugState) (cfg : ExecutorConfig)
    (h : cfg.Endpoint = "") :
    (constructionCallFrame g cfg).1 = cfg ∧
    (constructionCallFrame g cfg).1.Endpoint = "" ∧
    defaultEndpoint cfg ≠ cfg := by
  refine ⟨rfl, h, ?_⟩
  intro heq
  have h2 : (defaultEndpoint cfg).Endpoint = cfg.Endpoint :=
    congrArg ExecutorConfig.Endpoint heq
  rw [h] at h2
  simp [defaultEndpoint, h] at h2
  have h3 := congrArg String.length h2
  rw [String.length_append, String.length_append] at h3
  have h4 : ("https://dynamodb." : String).length = 17 := rfl
  have h5 : (".amazonaws.com/" : String).length = 15 := rfl
  have h6 : ("" : String).length = 0 := rfl
  omega

/-- C10 witness: a concrete config with empty endpoint is unchanged in the
caller's frame while the constructor's local copy was changed by the
defaulting. -/
theorem c10_config_passed_by_value_witness :
    (constructionCallFrame ⟨0, 0⟩ ⟨"us-west-2", "AKID", "SECRET", "", ""⟩).1 =
      ⟨"us-west-2", "AKID", "SECRET", "", ""⟩ ∧
    (constructionCallFrame ⟨0, 0⟩ ⟨"us-west-2", "AKID", "SECRET", "", ""⟩).1.Endpoint = "" ∧
    defaultEndpoint ⟨"us-west-2", "AKID", "SECRET", "", ""⟩ ≠
      ⟨"us-west-2", "AKID", "SECRET", "", ""⟩ :=
  c10_config_passed_by_value ⟨0, 0⟩ ⟨"us-west-2", "AKID", "SECRET", "", ""⟩ rfl
